import Mathlib

/-
Verification of the service generator
(src/openapi_python_generator/language_converters/python/service_generator.py).

The Python module is shallowly embedded below.  The schema objects coming from
`openapi_schema_pydantic` are modelled as plain Lean structures carrying exactly
the fields the generator reads; the external type-conversion collaborator
(`type_converter` from the model generator, not part of this module) is a
function parameter `tc`, and the Jinja template renderer is a function
parameter `render`.  Python dictionaries are modelled as insertion-ordered
association lists with unique keys; Python exceptions are modelled with
`Except String`.
-/

set_option autoImplicit false
set_option linter.unusedVariables false

namespace SvcGen

/-- Boolean test that the first character list is a prefix of the second
(used to model Python's `str.startswith`). -/
def listPrefixTest : List Char → List Char → Bool
  | [], _ => true
  | _ :: _, [] => false
  | x :: xs, y :: ys => x == y && listPrefixTest xs ys

/-- Models Python `s.startswith(t)`. -/
def strStartsWith (s t : String) : Bool :=
  listPrefixTest t.data s.data

/-- Models Python `s.endswith(t)` (used only in specification statements). -/
def strEndsWith (s t : String) : Bool :=
  listPrefixTest t.data.reverse s.data.reverse

/-- Boolean test that `needle` occurs as a contiguous sublist of `hay`. -/
def listInfixTest (needle : List Char) : List Char → Bool
  | [] => listPrefixTest needle []
  | c :: tl => listPrefixTest needle (c :: tl) || listInfixTest needle tl

/-- Models Python `needle in hay` on strings (substring containment). -/
def pyInStr (needle hay : String) : Bool :=
  listInfixTest needle.data hay.data

/-- Models Python `ref.split('/')[-1]`: the suffix of `s` after its last
slash (all of `s` when it has no slash). -/
def refLastSegment (s : String) : String :=
  String.mk ((s.data.reverse.takeWhile (fun c => c ≠ '/')).reverse)

/-- Models Python `s.replace('-', '_')` (single-character pattern, so a
character map). -/
def pyReplaceDash (s : String) : String :=
  String.mk (s.data.map (fun c => if c = '-' then '_' else c))

/-- Accumulator loop for `pyInt`: reads decimal digits, failing on any
non-digit character. -/
def parseDigits : List Char → Nat → Option Nat
  | [], acc => some acc
  | c :: tl, acc =>
    if c.isDigit then parseDigits tl (acc * 10 + (c.toNat - 48)) else none

/-- Models Python `int(s)` on the inputs that occur here: the status-code keys
already filtered to start with the digit `2`, hence nonnegative digit strings.
Any other shape raises `ValueError` in Python, modelled as `Except.error`. -/
def pyInt (s : String) : Except String Int :=
  match s.data with
  | [] => Except.error "invalid literal for int() with base 10"
  | l =>
    match parseDigits l 0 with
    | some n => Except.ok (Int.ofNat n)
    | none => Except.error "invalid literal for int() with base 10"

/-- Models Python `d.get(k)` / `k in d` on an insertion-ordered dict with
unique keys: first match wins. -/
def dictGet {α : Type} : List (String × α) → String → Option α
  | [], _ => none
  | (k, v) :: tl, key => if k = key then some v else dictGet tl key

/-- Models Python `l[i]`: `IndexError` on out-of-range access. -/
def pyIndex {α : Type} (l : List α) (i : Nat) : Except String α :=
  match l.get? i with
  | some x => Except.ok x
  | none => Except.error "IndexError: list index out of range"

/-- Models a Python f-string interpolation of an `Optional[str]` value:
`None` prints as the four-character string. -/
def pyFormatOptStr : Option String → String
  | none => "None"
  | some s => s

/-- Models building the Python `set` of tag values: duplicates removed.  The
iteration order of a CPython set is unspecified; first-occurrence order is
used here, and no counting statement below depends on the order. -/
def distinctTags (l : List (Option String)) : List (Option String) :=
  l.foldl (fun acc t => if t ∈ acc then acc else acc ++ [t]) []

/-- Boolean success test for `Except`. -/
def exceptOk {ε α : Type} : Except ε α → Bool
  | Except.ok _ => true
  | Except.error _ => false

/-- `openapi_schema_pydantic.Reference`: the fields read by the generator. -/
structure Reference where
  ref : String
deriving DecidableEq

/-- A schema position is either a named `Reference` or an inline schema.
Inline schemas are opaque to this module (they are only passed to the
external `type_converter` collaborator), so they are a type parameter `σ`. -/
inductive SchemaOrRef (σ : Type) where
  | ref (r : Reference)
  | schema (s : σ)
deriving DecidableEq

/-- `openapi_schema_pydantic.MediaType`: the field read by the generator.
`media_type_schema` is optional in the pydantic model. -/
structure MediaType (σ : Type) where
  media_type_schema : Option (SchemaOrRef σ)
deriving DecidableEq

/-- `openapi_schema_pydantic.Response`: the field read by the generator. -/
structure Response (σ : Type) where
  content : Option (List (String × MediaType σ))
deriving DecidableEq

/-- `openapi_schema_pydantic.Parameter`: the fields read by the generator
(`param_in` and `param_schema` are the pydantic aliases of `in`/`schema`). -/
structure Param (σ : Type) where
  name : String
  param_in : String
  required : Bool
  param_schema : SchemaOrRef σ
deriving DecidableEq

/-- `openapi_schema_pydantic.RequestBody`: its `content` is a required
media-type-keyed dict in the pydantic model. -/
structure RequestBody (σ : Type) where
  content : List (String × MediaType σ)
deriving DecidableEq

/-- `openapi_schema_pydantic.Operation`: the fields read by the generator. -/
structure Operation (σ : Type) where
  operationId : Option String
  parameters : Option (List (Param σ))
  requestBody : Option (RequestBody σ)
  responses : Option (List (String × Response σ))
  tags : Option (List String)
deriving DecidableEq

/-- `openapi_schema_pydantic.PathItem`: one optional `Operation` per
supported HTTP method. -/
structure PathItem (σ : Type) where
  get : Option (Operation σ)
  post : Option (Operation σ)
  put : Option (Operation σ)
  delete : Option (Operation σ)
  options : Option (Operation σ)
  head : Option (Operation σ)
  patch : Option (Operation σ)
  trace : Option (Operation σ)
deriving DecidableEq

/-- Modelled from the spec: `openapi_python_generator.models.TypeConversion`
(the models module is not under src/).  "original schema type string;
converted target-language type name string; optional list of auxiliary type
names that must be imported/declared alongside it". -/
structure TypeConversion where
  original_type : String
  converted_type : String
  import_types : Option (List String)
deriving DecidableEq

/-- A status code as stored by the generator: the literal string "200" in the
default branches, the `int()`-converted key otherwise (the spec's "status
code (string or int)"). -/
inductive StatusCode where
  | str (s : String)
  | int (n : Int)
deriving DecidableEq

/-- Modelled from the spec: `openapi_python_generator.models.OpReturnType`
(the models module is not under src/).  "optional TypeConversion; status code
(string or int); boolean complex_type flag; optional list_type".  The Python
call sites pass the string `"False"` for `complex_type` in the no-type
branches; pydantic coerces it to the boolean `False`, modelled as `false`. -/
structure OpReturnType where
  type : Option TypeConversion
  status_code : StatusCode
  complex_type : Bool
  list_type : Option String
deriving DecidableEq

/-- Modelled from the spec: `openapi_python_generator.models.LibraryConfig`
(the models module is not under src/): the per-library configuration carrying
"whether to emit sync operations, whether to emit async operations, and
the name to import for the generated client's runtime dependency", plus the
template name used by the renderer. -/
structure LibraryConfig where
  library_name : String
  template_name : String
  include_sync : Bool
  include_async : Bool
deriving DecidableEq

/-- Modelled from the spec: `openapi_python_generator.models.ServiceOperation`
(the models module is not under src/), with exactly the fields the generator
passes or mutates; `tag` defaults to absent and is attached post-construction. -/
structure ServiceOperation (σ : Type) where
  params : List String
  operation_id : String
  query_params : List String
  return_type : OpReturnType
  operation : Operation σ
  pathItem : PathItem σ
  content : String
  async_client : Bool
  body_param : Option String
  path_name : String
  method : String
  tag : Option String
deriving DecidableEq

/-- Modelled from the spec: `openapi_python_generator.models.Service`
(the models module is not under src/). -/
structure Service (σ : Type) where
  file_name : String
  operations : List (ServiceOperation σ)
  content : String
  async_client : Bool
  library_import : String
deriving DecidableEq

/-- `HTTP_OPERATIONS` from the source. -/
def HTTP_OPERATIONS : List String :=
  ["get", "post", "put", "delete", "options", "head", "patch", "trace"]

/-- Models `path.__getattribute__(http_operation)` for the eight method
names the generator iterates over. -/
def PathItem.getOp {σ : Type} (p : PathItem σ) (name : String) : Option (Operation σ) :=
  if name = "get" then p.get
  else if name = "post" then p.post
  else if name = "put" then p.put
  else if name = "delete" then p.delete
  else if name = "options" then p.options
  else if name = "head" then p.head
  else if name = "patch" then p.patch
  else if name = "trace" then p.trace
  else none

/-- `generate_body_param` from the source. -/
def generate_body_param {σ : Type} (op : Operation σ) : Option String :=
  match op.requestBody with
  | none => none
  | some _ => some "data"

/-- The f-string of source lines 48-57 without the optionality suffix:
`name : convertedType` for an inline schema, `name : ReferencedShortName`
for a reference. -/
def renderParamBase {σ : Type} (tc : Option σ → Bool → TypeConversion) (p : Param σ) : String :=
  match p.param_schema with
  | SchemaOrRef.schema s => p.name ++ " : " ++ (tc (some s) p.required).converted_type
  | SchemaOrRef.ref r => p.name ++ " : " ++ refLastSegment r.ref

/-- One declared-parameter entry of `generate_params` (source lines 48-57):
the base rendering plus `" = None"` exactly when the parameter is optional. -/
def renderParam {σ : Type} (tc : Option σ → Bool → TypeConversion) (p : Param σ) : String :=
  renderParamBase tc p ++ (if p.required then "" else " = None")

/-- `_generate_params_from_content` from the source.  The argument is the
`media_type_schema` of the JSON media type, passed through unchecked in
Python, so an absent schema reaches the `type_converter` collaborator as
`None` (hence `tc` takes an `Option`). -/
def generate_params_from_content {σ : Type} (tc : Option σ → Bool → TypeConversion) :
    Option (SchemaOrRef σ) → String
  | some (SchemaOrRef.ref r) => "data : " ++ refLastSegment r.ref
  | some (SchemaOrRef.schema s) => "data : " ++ (tc (some s) true).converted_type
  | none => "data : " ++ (tc none true).converted_type

/-- `generate_params` from the source.  The declared-parameter loop appends
one rendered entry per parameter; a request body whose content lacks the
`application/json` key raises (the Python message interpolates
`type(content)`, which is always the dict type here). -/
def generate_params {σ : Type} (tc : Option σ → Bool → TypeConversion) (op : Operation σ) :
    Except String (List String) :=
  match op.parameters, op.requestBody with
  | none, none => Except.ok []
  | _, _ =>
    let params :=
      match op.parameters with
      | none => []
      | some ps => ps.foldl (fun acc p => acc ++ [renderParam tc p]) []
    match op.requestBody with
    | none => Except.ok params
    | some rb =>
      match dictGet rb.content "application/json" with
      | some mt => Except.ok (params ++ [generate_params_from_content tc mt.media_type_schema])
      | none => Except.error "Unknown media type schema type: <class \x27dict\x27>"

/-- `generate_operation_id` from the source: `operation.operationId.replace('-', '_')`,
which raises `AttributeError` when `operationId` is `None`. -/
def generate_operation_id {σ : Type} (op : Operation σ) (http_op : String) : Except String String :=
  match op.operationId with
  | none => Except.error "AttributeError: NoneType object has no attribute replace"
  | some oid => Except.ok (pyReplaceDash oid)

/-- One entry of `generate_query_params`: `'name' : name`. -/
def queryEntry {σ : Type} (p : Param σ) : String :=
  "\x27" ++ p.name ++ "\x27 : " ++ p.name

/-- `generate_query_params` from the source: a loop appending one entry per
parameter whose `param_in` is `"query"`. -/
def generate_query_params {σ : Type} (op : Operation σ) : List String :=
  match op.parameters with
  | none => []
  | some ps =>
    ps.foldl (fun acc p => if p.param_in == "query" then acc ++ [queryEntry p] else acc) []

/-- The no-usable-return value built at source lines 95 and 102: no type,
the literal status string "200", not complex (`complex_type="False"` is
coerced to boolean false by pydantic). -/
def noType200 : OpReturnType :=
  { type := none, status_code := StatusCode.str "200", complex_type := false, list_type := none }

/-- Source lines 134-135: `import_types is not None and len(import_types) > 0`. -/
def complexFlag (t : TypeConversion) : Bool :=
  match t.import_types with
  | none => false
  | some l => decide (0 < l.length)

/-- The list comprehension at source lines 96-100 after the `startswith("2")`
filter: converts every remaining status-code key with `int()`, in order,
propagating the first conversion error. -/
def convertGood {σ : Type} : List (String × Response σ) → Except String (List (Int × Response σ))
  | [] => Except.ok []
  | (k, r) :: tl =>
    match pyInt k with
    | Except.error e => Except.error e
    | Except.ok n =>
      match convertGood tl with
      | Except.error e => Except.error e
      | Except.ok rest => Except.ok ((n, r) :: rest)

/-- Source lines 104-141: the part of `generate_return_type` acting on the
first good response (status code already `int()`-converted). -/
def resolveFromResponse {σ : Type} (tc : Option σ → Bool → TypeConversion) (sc : Int)
    (resp : Response σ) : Except String OpReturnType :=
  match resp.content with
  | none =>
    Except.ok { type := none, status_code := StatusCode.int sc, complex_type := false, list_type := none }
  | some content =>
    match dictGet content "application/json" with
    | none => Except.error "Unknown media type schema type"
    | some mt =>
      match mt.media_type_schema with
      | none => Except.error "Unknown media type schema type"
      | some (SchemaOrRef.ref r) =>
        Except.ok
          { type := some
              { original_type := r.ref
                converted_type := refLastSegment r.ref
                import_types := some [refLastSegment r.ref] }
            status_code := StatusCode.int sc
            complex_type := true
            list_type := none }
      | some (SchemaOrRef.schema s) =>
        let converted_result := tc (some s) true
        if pyInStr "array" converted_result.original_type && converted_result.import_types.isSome then
          match pyIndex (converted_result.import_types.getD []) 0 with
          | Except.error e => Except.error e
          | Except.ok x =>
            Except.ok
              { type := some converted_result
                status_code := StatusCode.int sc
                complex_type := complexFlag converted_result
                list_type := some x }
        else
          Except.ok
            { type := some converted_result
              status_code := StatusCode.int sc
              complex_type := complexFlag converted_result
              list_type := none }

/-- `generate_return_type` from the source. -/
def generate_return_type {σ : Type} (tc : Option σ → Bool → TypeConversion) (op : Operation σ) :
    Except String OpReturnType :=
  match op.responses with
  | none => Except.ok noType200
  | some responses =>
    match convertGood (responses.filter (fun p => strStartsWith p.1 "2")) with
    | Except.error e => Except.error e
    | Except.ok [] => Except.ok noType200
    | Except.ok ((sc, resp) :: _) => resolveFromResponse tc sc resp

/-- The 2xx candidates of an operation, in insertion order: the responses
mapping filtered to keys starting with "2" (used in specification
statements). -/
def goodList {σ : Type} (op : Operation σ) : List (String × Response σ) :=
  (op.responses.getD []).filter (fun p => strStartsWith p.1 "2")

/-- The declared-parameter part of the parameter list, one rendered entry per
parameter in schema order (used in specification statements). -/
def declaredParamList {σ : Type} (tc : Option σ → Bool → TypeConversion) (op : Operation σ) :
    List String :=
  (op.parameters.getD []).map (renderParam tc)

/-- `generate_service_operation` (the closure inside `generate_services`):
resolve parameters, operation id, query parameters, return type and body
parameter, build the descriptor with empty content and no tag, render it,
then attach the first tag when one exists.  The post-render `compile()`
syntax check only prints a diagnostic and never changes the result, so it
has no counterpart here. -/
def generate_service_operation {σ : Type} (tc : Option σ → Bool → TypeConversion)
    (render : String → ServiceOperation σ → String) (cfg : LibraryConfig)
    (op : Operation σ) (path_name : String) (path : PathItem σ)
    (http_operation : String) (async_type : Bool) : Except String (ServiceOperation σ) :=
  match generate_params tc op with
  | Except.error e => Except.error e
  | Except.ok params =>
    match generate_operation_id op http_operation with
    | Except.error e => Except.error e
    | Except.ok operation_id =>
      let query_params := generate_query_params op
      match generate_return_type tc op with
      | Except.error e => Except.error e
      | Except.ok return_type =>
        let body_param := generate_body_param op
        let so : ServiceOperation σ :=
          { params := params
            operation_id := if async_type then "async_" ++ operation_id else operation_id
            query_params := query_params
            return_type := return_type
            operation := op
            pathItem := path
            content := ""
            async_client := async_type
            body_param := body_param
            path_name := path_name
            method := http_operation
            tag := none }
        let so := { so with content := render cfg.template_name so }
        let so :=
          match op.tags with
          | some (t :: _) => { so with tag := some t }
          | _ => so
        Except.ok so

/-- The descriptor-collection phase of `generate_services` (source lines
190-204): for every path, for every HTTP method present, append the sync
descriptor when sync is enabled then the async descriptor when async is
enabled, in encounter order, propagating the first error. -/
def generate_service_ops {σ : Type} (tc : Option σ → Bool → TypeConversion)
    (render : String → ServiceOperation σ → String)
    (paths : List (String × PathItem σ)) (cfg : LibraryConfig) :
    Except String (List (ServiceOperation σ)) :=
  paths.foldlM
    (fun acc pp =>
      HTTP_OPERATIONS.foldlM
        (fun acc2 http_operation =>
          match pp.2.getOp http_operation with
          | none => Except.ok acc2
          | some op =>
            match
              (if cfg.include_sync then
                match generate_service_operation tc render cfg op pp.1 pp.2 http_operation false with
                | Except.error e => Except.error e
                | Except.ok so => Except.ok (acc2 ++ [so])
              else Except.ok acc2) with
            | Except.error e => Except.error e
            | Except.ok acc3 =>
              if cfg.include_async then
                match generate_service_operation tc render cfg op pp.1 pp.2 http_operation true with
                | Except.error e => Except.error e
                | Except.ok so => Except.ok (acc3 ++ [so])
              else Except.ok acc3)
        acc)
    []

/-- One iteration of the first (synchronous) service loop at source lines
208-225. -/
def mkSyncService {σ : Type} (cfg : LibraryConfig) (service_ops : List (ServiceOperation σ))
    (tag : Option String) : Service σ :=
  { file_name := pyFormatOptStr tag ++ "_service"
    operations := service_ops.filter (fun so => so.tag == tag && !so.async_client)
    content :=
      String.intercalate "\n"
        ((service_ops.filter (fun so => so.tag == tag && !so.async_client)).map
          (fun so => so.content))
    async_client := false
    library_import := cfg.library_name }

/-- One iteration of the second (asynchronous) service loop at source lines
227-244. -/
def mkAsyncService {σ : Type} (cfg : LibraryConfig) (service_ops : List (ServiceOperation σ))
    (tag : Option String) : Service σ :=
  { file_name := "async_" ++ pyFormatOptStr tag ++ "_service"
    operations := service_ops.filter (fun so => so.tag == tag && so.async_client)
    content :=
      String.intercalate "\n"
        ((service_ops.filter (fun so => so.tag == tag && so.async_client)).map
          (fun so => so.content))
    async_client := true
    library_import := cfg.library_name }

/-- `generate_services` from the source: collect the descriptors, take the
set of observed tag values, then run the synchronous service loop followed by
the asynchronous one over that whole set — both loops run regardless of the
`include_sync`/`include_async` configuration flags. -/
def generate_services {σ : Type} (tc : Option σ → Bool → TypeConversion)
    (render : String → ServiceOperation σ → String)
    (paths : List (String × PathItem σ)) (cfg : LibraryConfig) :
    Except String (List (Service σ)) :=
  match generate_service_ops tc render paths cfg with
  | Except.error e => Except.error e
  | Except.ok service_ops =>
    let tags := distinctTags (service_ops.map (fun so => so.tag))
    Except.ok (tags.map (mkSyncService cfg service_ops) ++ tags.map (mkAsyncService cfg service_ops))

/-
Concrete instances used to evaluate the development on closed inputs.
Inline schemas are instantiated at `σ := Unit` and the external
`type_converter` collaborator is a constant function.
-/

/-- A constant stand-in for the external type-conversion collaborator. -/
def tcConst (t : TypeConversion) : Option Unit → Bool → TypeConversion :=
  fun _ _ => t

/-- Collaborator answering a primitive integer conversion. -/
def tcInt : Option Unit → Bool → TypeConversion :=
  tcConst { original_type := "integer", converted_type := "int", import_types := none }

/-- Collaborator answering an array-of-Pet conversion carrying one
auxiliary name to be imported. -/
def tcArrPet : Option Unit → Bool → TypeConversion :=
  tcConst { original_type := "array", converted_type := "List[Pet]", import_types := some ["Pet"] }

/-- Collaborator answering an array conversion carrying an empty auxiliary
list of names to be imported. -/
def tcArrEmpty : Option Unit → Bool → TypeConversion :=
  tcConst { original_type := "array", converted_type := "List[str]", import_types := some [] }

/-- A trivial stand-in for the template renderer. -/
def renderNull : String → ServiceOperation Unit → String :=
  fun _ _ => ""

/-- A media type whose schema is inline. -/
def mtInline : MediaType Unit :=
  { media_type_schema := some (SchemaOrRef.schema ()) }

/-- Response content carrying an inline JSON schema. -/
def contentInline : List (String × MediaType Unit) :=
  [("application/json", mtInline)]

/-- A 2xx response with an inline `application/json` schema. -/
def respJsonInline : Response Unit :=
  { content := some contentInline }

/-- A response whose content mapping has no `application/json` entry. -/
def respNoJson : Response Unit :=
  { content := some [("text/plain", mtInline)] }

/-- An operation whose only 2xx response content lacks `application/json`. -/
def opNoJson : Operation Unit :=
  { operationId := some "op-one", parameters := none, requestBody := none
    responses := some [("200", respNoJson)], tags := none }

/-- An operation with a 200 inline-JSON response followed by a 404. -/
def opJsonInline : Operation Unit :=
  { operationId := some "get-pets", parameters := none, requestBody := none
    responses := some [("200", respJsonInline), ("404", respNoJson)], tags := none }

/-- A required query parameter with an inline schema. -/
def paramReq : Param Unit :=
  { name := "x", param_in := "query", required := true, param_schema := SchemaOrRef.schema () }

/-- An optional query parameter with an inline schema. -/
def paramOpt : Param Unit :=
  { name := "y", param_in := "query", required := false, param_schema := SchemaOrRef.schema () }

/-- A JSON request body with an inline schema. -/
def rbJson : RequestBody Unit :=
  { content := [("application/json", mtInline)] }

/-- A request body whose content is XML only. -/
def rbXml : RequestBody Unit :=
  { content := [("application/xml", mtInline)] }

/-- An operation declaring an XML-only request body. -/
def opBodyXml : Operation Unit :=
  { operationId := some "op-two", parameters := none, requestBody := some rbXml
    responses := none, tags := none }

/-- An operation with one declared parameter and a JSON request body. -/
def opJson5 : Operation Unit :=
  { operationId := some "op-five", parameters := some [paramReq], requestBody := some rbJson
    responses := none, tags := none }

/-- An operation carrying no operation identifier. -/
def opNoId : Operation Unit :=
  { operationId := none, parameters := none, requestBody := none
    responses := none, tags := none }

/-- A minimal tagged operation. -/
def opPets : Operation Unit :=
  { operationId := some "list-pets", parameters := none, requestBody := none
    responses := none, tags := some ["pets"] }

/-- A path item exposing `opPets` under GET. -/
def piPets : PathItem Unit :=
  { get := some opPets, post := none, put := none, delete := none
    options := none, head := none, patch := none, trace := none }

/-- A one-path paths mapping. -/
def pathsPets : List (String × PathItem Unit) :=
  [("/pets", piPets)]

/-- A configuration enabling only synchronous generation. -/
def cfgSyncOnly : LibraryConfig :=
  { library_name := "httpx", template_name := "default.jinja2"
    include_sync := true, include_async := false }

/-- The single descriptor `generate_service_ops` produces for `pathsPets`
under `cfgSyncOnly`. -/
def soPets : ServiceOperation Unit :=
  { params := [], operation_id := "list_pets", query_params := []
    return_type := noType200, operation := opPets, pathItem := piPets
    content := "", async_client := false, body_param := none
    path_name := "/pets", method := "get", tag := some "pets" }

/-- The two services `generate_services` produces for `pathsPets` under
`cfgSyncOnly`. -/
def svcsPets : List (Service Unit) :=
  [ { file_name := "pets_service", operations := [soPets], content := ""
      async_client := false, library_import := "httpx" }
  , { file_name := "async_pets_service", operations := [], content := ""
      async_client := true, library_import := "httpx" } ]

/-
Helper lemmas shared by the claim theorems.
-/

/-- An append-accumulating fold is a map. -/
theorem listFoldlAppendMap {α β : Type} (f : α → β) (l : List α) :
    ∀ acc : List β, l.foldl (fun a x => a ++ [f x]) acc = acc ++ l.map f := by
  induction l with
  | nil => intro acc; simp
  | cons x tl ih =>
    intro acc
    simp only [List.foldl, List.map]
    rw [ih (acc ++ [f x])]
    simp

/-- A guarded append-accumulating fold is a filter followed by a map. -/
theorem listFoldlFilterAppendMap {α β : Type} (p : α → Bool) (f : α → β) (l : List α) :
    ∀ acc : List β,
      l.foldl (fun a x => if p x then a ++ [f x] else a) acc = acc ++ (l.filter p).map f := by
  induction l with
  | nil => intro acc; simp
  | cons x tl ih =>
    intro acc
    simp only [List.foldl, List.filter_cons]
    cases hp : p x with
    | true =>
      simp only [hp, if_true, List.map]
      rw [ih (acc ++ [f x])]
      simp
    | false => simp [hp, ih acc]

/-- Appending the empty string is the identity. -/
theorem strAppendEmpty (s : String) : s ++ "" = s := by
  cases s with
  | mk l =>
    show String.mk (l ++ []) = String.mk l
    rw [List.append_nil]

/-- The character data of an appended string. -/
theorem strDataAppend (a b : String) : (a ++ b).data = a.data ++ b.data := by
  cases a with
  | mk la =>
    cases b with
    | mk lb => rfl

/-- A list passes the prefix test against itself extended on the right. -/
theorem listPrefixTestSelfAppend (l m : List Char) : listPrefixTest l (l ++ m) = true := by
  induction l with
  | nil => rfl
  | cons x xs ih => simp [listPrefixTest, ih]

/-- Every string ends with any suffix just appended to it. -/
theorem strEndsWithAppendSelf (a b : String) : strEndsWith (a ++ b) b = true := by
  unfold strEndsWith
  rw [strDataAppend, List.reverse_append]
  exact listPrefixTestSelfAppend _ _

/-- Splitting a successful conversion of a nonempty candidate list into the
conversion of its head key and of its tail. -/
theorem convertGoodConsOk {σ : Type} {k : String} {r : Response σ}
    {tl : List (String × Response σ)}
    (h : exceptOk (convertGood ((k, r) :: tl)) = true) :
    ∃ n tl', pyInt k = Except.ok n ∧ convertGood tl = Except.ok tl' ∧
      convertGood ((k, r) :: tl) = Except.ok ((n, r) :: tl') := by
  cases hk : pyInt k with
  | error e => simp [convertGood, hk, exceptOk] at h
  | ok n =>
    cases htl : convertGood tl with
    | error e => simp [convertGood, hk, htl, exceptOk] at h
    | ok tl' => exact ⟨n, tl', rfl, rfl, by simp [convertGood, hk, htl]⟩

/-- When the 2xx candidate list is nonempty and all its keys convert, the
return-type resolver is the per-response resolver applied to the first
candidate. -/
theorem grtFirst {σ : Type} (tc : Option σ → Bool → TypeConversion) (op : Operation σ)
    {k : String} {n : Int} {resp : Response σ} {rest : List (String × Response σ)}
    (hgood : goodList op = (k, resp) :: rest)
    (hall : exceptOk (convertGood (goodList op)) = true)
    (hk : pyInt k = Except.ok n) :
    generate_return_type tc op = resolveFromResponse tc n resp := by
  cases hr : op.responses with
  | none =>
    rw [goodList, hr] at hgood
    simp at hgood
  | some rs =>
    have hfilter : rs.filter (fun p => strStartsWith p.1 "2") = (k, resp) :: rest := by
      rw [goodList, hr] at hgood
      simpa using hgood
    have h2 : exceptOk (convertGood ((k, resp) :: rest)) = true := by
      rw [← hgood]; exact hall
    obtain ⟨n', tl', hk', htl, hcg⟩ := convertGoodConsOk h2
    rw [hk] at hk'
    injection hk' with hnn
    subst hnn
    simp [generate_return_type, hr, hfilter, hcg]

/-- C4: the return-type resolver considers exactly the responses whose
status-code key starts with "2", in the responses mapping's insertion order,
and the first such entry is authoritative; if responses is absent or contains
no 2xx entry, it returns no type with the canonical status string "200" and
`complex_type` false.  (The hypothesis states that every retained 2xx key
converts under `int()`, since Python converts all of them before the first
entry is examined.) -/
theorem c4_first_2xx_authoritative {σ : Type} (tc : Option σ → Bool → TypeConversion)
    (op : Operation σ)
    (h : exceptOk (convertGood (goodList op)) = true) :
    generate_return_type tc op =
      match goodList op with
      | [] => Except.ok noType200
      | (k, r) :: _ =>
        match pyInt k with
        | Except.ok n => resolveFromResponse tc n r
        | Except.error e => Except.error e := by
  cases hg : goodList op with
  | nil =>
    cases hr : op.responses with
    | none => simp [generate_return_type, hr]
    | some rs =>
      have hfilter : rs.filter (fun p => strStartsWith p.1 "2") = [] := by
        rw [goodList, hr] at hg
        simpa using hg
      simp [generate_return_type, hr, hfilter, convertGood]
  | cons hd tl =>
    obtain ⟨k, resp⟩ := hd
    have h2 : exceptOk (convertGood ((k, resp) :: tl)) = true := by
      rw [← hg]; exact h
    obtain ⟨n, tl', hk, htl, hcg⟩ := convertGoodConsOk h2
    rw [grtFirst tc op hg h hk]
    simp [hg, hk]

/-- C4 witness: a concrete operation with responses keyed "200" then "404"
satisfies the hypothesis, and the theorem applies. -/
theorem c4_first_2xx_authoritative_witness :
    exceptOk (convertGood (goodList opJsonInline)) = true
    ∧ generate_return_type tcArrPet opJsonInline =
        (match goodList opJsonInline with
        | [] => Except.ok noType200
        | (k, r) :: _ =>
          match pyInt k with
          | Except.ok n => resolveFromResponse tcArrPet n r
          | Except.error e => Except.error e) :=
  ⟨rfl, c4_first_2xx_authoritative tcArrPet opJsonInline rfl⟩

/-- C2 fails on the code: for an operation whose first 2xx response has a
non-absent content mapping lacking `application/json`, `generate_return_type`
raises "Unknown media type schema type" (the `content.get` miss falls into
the final `isinstance` else-branch) instead of returning a no-type result. -/
theorem c2_counterexample :
    generate_return_type tcInt opNoJson = Except.error "Unknown media type schema type"
    ∧ generate_return_type tcInt opNoJson ≠
        Except.ok { type := none, status_code := StatusCode.int 200
                    complex_type := false, list_type := none } :=
  ⟨rfl, fun h => Except.noConfusion h⟩

/-- C2 as amended: for every operation whose first 2xx response has a
non-absent content mapping that lacks an `application/json` media entry, the
return-type resolver raises the error "Unknown media type schema type"
rather than returning a result. -/
theorem c2_missing_json_raises {σ : Type} (tc : Option σ → Bool → TypeConversion)
    (op : Operation σ) (k : String) (n : Int) (resp : Response σ)
    (rest : List (String × Response σ)) (content : List (String × MediaType σ))
    (hgood : goodList op = (k, resp) :: rest)
    (hall : exceptOk (convertGood (goodList op)) = true)
    (hk : pyInt k = Except.ok n)
    (hcontent : resp.content = some content)
    (hjson : dictGet content "application/json" = none) :
    generate_return_type tc op = Except.error "Unknown media type schema type" := by
  rw [grtFirst tc op hgood hall hk]
  simp [resolveFromResponse, hcontent, hjson]

/-- C2 witness: the amended theorem applied to the concrete `opNoJson`. -/
theorem c2_missing_json_raises_witness :
    goodList opNoJson = [("200", respNoJson)]
    ∧ respNoJson.content = some [("text/plain", mtInline)]
    ∧ dictGet [("text/plain", mtInline)] "application/json" = none
    ∧ generate_return_type tcInt opNoJson = Except.error "Unknown media type schema type" :=
  ⟨rfl, rfl, rfl,
    c2_missing_json_raises tcInt opNoJson "200" 200 respNoJson [] [("text/plain", mtInline)]
      rfl rfl rfl rfl rfl⟩

/-- C3: for an operation whose first 2xx response carries an inline
`application/json` schema, if the collaborator's original-type string
contains "array" and its auxiliary-import list has at least one name, the
resolver sets `list_type` to the first auxiliary name; and whenever a result
is produced in the inline-schema case, it is marked complex if and only if
the collaborator reported at least one auxiliary import name. -/
theorem c3_inline_schema_array {σ : Type} (tc : Option σ → Bool → TypeConversion)
    (op : Operation σ) (k : String) (n : Int) (resp : Response σ)
    (rest : List (String × Response σ)) (content : List (String × MediaType σ))
    (mt : MediaType σ) (s : σ)
    (hgood : goodList op = (k, resp) :: rest)
    (hall : exceptOk (convertGood (goodList op)) = true)
    (hk : pyInt k = Except.ok n)
    (hcontent : resp.content = some content)
    (hmt : dictGet content "application/json" = some mt)
    (hschema : mt.media_type_schema = some (SchemaOrRef.schema s)) :
    (∀ x xs, pyInStr "array" (tc (some s) true).original_type = true →
        (tc (some s) true).import_types = some (x :: xs) →
        generate_return_type tc op = Except.ok
          { type := some (tc (some s) true), status_code := StatusCode.int n
            complex_type := true, list_type := some x })
    ∧ (∀ ret, generate_return_type tc op = Except.ok ret →
        (ret.complex_type = true ↔ ∃ x xs, (tc (some s) true).import_types = some (x :: xs))) := by
  have heq : generate_return_type tc op = resolveFromResponse tc n resp :=
    grtFirst tc op hgood hall hk
  constructor
  · intro x xs harr him
    rw [heq]
    simp [resolveFromResponse, hcontent, hmt, hschema, harr, him, pyIndex, complexFlag]
  · intro ret hret
    rw [heq] at hret
    simp only [resolveFromResponse, hcontent, hmt, hschema] at hret
    cases him : (tc (some s) true).import_types with
    | none =>
      simp [him, complexFlag] at hret
      simp [← hret, him]
    | some l =>
      cases l with
      | nil =>
        cases harr : pyInStr "array" (tc (some s) true).original_type with
        | true => simp [him, harr, pyIndex] at hret
        | false =>
          simp [him, harr, complexFlag] at hret
          simp [← hret, him]
      | cons x xs =>
        cases harr : pyInStr "array" (tc (some s) true).original_type with
        | true =>
          simp [him, harr, pyIndex, complexFlag] at hret
          simp [← hret, him]
        | false =>
          simp [him, harr, complexFlag] at hret
          simp [← hret, him]

/-- C3 witness: the concrete array-of-Pet collaborator on `opJsonInline`
yields a complex result whose `list_type` is "Pet". -/
theorem c3_inline_schema_array_witness :
    goodList opJsonInline = [("200", respJsonInline)]
    ∧ respJsonInline.content = some contentInline
    ∧ dictGet contentInline "application/json" = some mtInline
    ∧ mtInline.media_type_schema = some (SchemaOrRef.schema ())
    ∧ generate_return_type tcArrPet opJsonInline = Except.ok
        { type := some { original_type := "array", converted_type := "List[Pet]"
                         import_types := some ["Pet"] }
          status_code := StatusCode.int 200, complex_type := true, list_type := some "Pet" } :=
  ⟨rfl, rfl, rfl, rfl,
    (c3_inline_schema_array tcArrPet opJsonInline "200" 200 respJsonInline [] contentInline
        mtInline () rfl rfl rfl rfl rfl rfl).1 "Pet" [] rfl rfl⟩

/-- C10: the array handling of the return-type resolver indexes the
collaborator's auxiliary-import list guarded only by its existence, not by
non-emptiness: on an inline 2xx JSON schema whose conversion has original
type containing "array" and an empty auxiliary-import list,
`generate_return_type` fails with the out-of-bounds IndexError rather than
returning a result or one of the "Unknown media type schema type" errors. -/
theorem c10_array_empty_imports_index_error :
    generate_return_type tcArrEmpty opJsonInline
      = Except.error "IndexError: list index out of range"
    ∧ pyInStr "array" ((tcArrEmpty (some ()) true).original_type) = true
    ∧ (tcArrEmpty (some ()) true).import_types = some [] :=
  ⟨rfl, rfl, rfl⟩

/-- Every body-parameter entry starts with the fixed identifier `data`. -/
theorem gpfcData {σ : Type} (tc : Option σ → Bool → TypeConversion)
    (c : Option (SchemaOrRef σ)) :
    ∃ t, generate_params_from_content tc c = "data : " ++ t := by
  match c with
  | some (SchemaOrRef.ref r) => exact ⟨_, rfl⟩
  | some (SchemaOrRef.schema s) => exact ⟨_, rfl⟩
  | none => exact ⟨_, rfl⟩

/-- C5: every successfully resolved parameter list consists of all declared
parameters in schema order, followed by exactly one body parameter — an
entry named with the fixed identifier `data` — placed last exactly when the
operation declares a JSON request body; an operation with neither parameters
nor request body yields the empty list. -/
theorem c5_params_order {σ : Type} (tc : Option σ → Bool → TypeConversion)
    (op : Operation σ) (l : List String)
    (h : generate_params tc op = Except.ok l) :
    (op.requestBody = none → l = declaredParamList tc op)
    ∧ (∀ rb, op.requestBody = some rb → ∃ mt t,
        dictGet rb.content "application/json" = some mt
        ∧ generate_params_from_content tc mt.media_type_schema = "data : " ++ t
        ∧ l = declaredParamList tc op ++ [generate_params_from_content tc mt.media_type_schema])
    ∧ (op.parameters = none → op.requestBody = none → l = []) := by
  refine ⟨?_, ?_, ?_⟩
  · intro hrbn
    have hgp : generate_params tc op = Except.ok (declaredParamList tc op) := by
      cases hp : op.parameters with
      | none => simp [generate_params, hp, hrbn, declaredParamList]
      | some ps => simp [generate_params, hp, hrbn, declaredParamList, listFoldlAppendMap]
    rw [hgp] at h
    injection h with h2
    exact h2.symm
  · intro rb hrb
    cases hj : dictGet rb.content "application/json" with
    | none =>
      have hgp : generate_params tc op
          = Except.error "Unknown media type schema type: <class \x27dict\x27>" := by
        cases hp : op.parameters <;> simp [generate_params, hp, hrb, hj]
      rw [hgp] at h
      exact Except.noConfusion h
    | some mt =>
      have hgp : generate_params tc op
          = Except.ok (declaredParamList tc op
              ++ [generate_params_from_content tc mt.media_type_schema]) := by
        cases hp : op.parameters with
        | none => simp [generate_params, hp, hrb, hj, declaredParamList]
        | some ps => simp [generate_params, hp, hrb, hj, declaredParamList, listFoldlAppendMap]
      rw [hgp] at h
      injection h with h2
      obtain ⟨t, ht⟩ := gpfcData tc mt.media_type_schema
      exact ⟨mt, t, rfl, ht, h2.symm⟩
  · intro hpn hrbn
    have hgp : generate_params tc op = Except.ok [] := by
      simp [generate_params, hpn, hrbn]
    rw [hgp] at h
    injection h with h2
    exact h2.symm

/-- C5 witness: one required parameter plus a JSON body resolves to the
declared entry followed by the `data` entry. -/
theorem c5_params_order_witness :
    generate_params tcInt opJson5 = Except.ok ["x : int", "data : int"]
    ∧ ((opJson5.requestBody = none → ["x : int", "data : int"] = declaredParamList tcInt opJson5)
      ∧ (∀ rb, opJson5.requestBody = some rb → ∃ mt t,
          dictGet rb.content "application/json" = some mt
          ∧ generate_params_from_content tcInt mt.media_type_schema = "data : " ++ t
          ∧ ["x : int", "data : int"]
              = declaredParamList tcInt opJson5
                ++ [generate_params_from_content tcInt mt.media_type_schema])
      ∧ (opJson5.parameters = none → opJson5.requestBody = none
          → ["x : int", "data : int"] = ([] : List String))) :=
  ⟨rfl, c5_params_order tcInt opJson5 ["x : int", "data : int"] rfl⟩

/-- C6: a rendered parameter declaration ends with " = None" if and only if
the parameter is not required, and a required parameter is rendered with no
default.  (The hypothesis excludes the degenerate situation in which the
collaborator-supplied type name itself ends in the literal " = None".) -/
theorem c6_optional_default {σ : Type} (tc : Option σ → Bool → TypeConversion)
    (p : Param σ)
    (h : strEndsWith (renderParamBase tc p) " = None" = false) :
    (strEndsWith (renderParam tc p) " = None" = true ↔ p.required = false)
    ∧ (p.required = true → renderParam tc p = renderParamBase tc p) := by
  cases hreq : p.required with
  | true =>
    have hr : renderParam tc p = renderParamBase tc p := by
      simp [renderParam, hreq, strAppendEmpty]
    constructor
    · rw [hr, h]
      simp [hreq]
    · intro _
      exact hr
  | false =>
    have hr : renderParam tc p = renderParamBase tc p ++ " = None" := by
      simp [renderParam, hreq]
    constructor
    · rw [hr, strEndsWithAppendSelf]
      simp
    · intro hcon
      simp at hcon

/-- C6 witness: the optional parameter `y` renders with the default, the
required parameter case is vacuous. -/
theorem c6_optional_default_witness :
    strEndsWith (renderParamBase tcInt paramOpt) " = None" = false
    ∧ ((strEndsWith (renderParam tcInt paramOpt) " = None" = true ↔ paramOpt.required = false)
      ∧ (paramOpt.required = true → renderParam tcInt paramOpt = renderParamBase tcInt paramOpt)) :=
  ⟨rfl, c6_optional_default tcInt paramOpt rfl⟩

/-- C7: the resolved query-parameter list contains exactly one `'name' : name`
entry for each declared parameter whose location is "query", in declaration
order and independently of the required flag (the filter predicate mentions
only `param_in`), and no entries for parameters at any other location. -/
theorem c7_query_params_filter {σ : Type} (op : Operation σ) :
    generate_query_params op =
      ((op.parameters.getD []).filter (fun p => p.param_in == "query")).map queryEntry := by
  cases hp : op.parameters with
  | none => simp [generate_query_params, hp]
  | some ps =>
    simp only [generate_query_params, hp, Option.getD]
    rw [listFoldlFilterAppendMap]
    simp

/-- C8: an operation declaring a request body whose content mapping has no
`application/json` media type makes parameter resolution raise, and the
error propagates so that no descriptor is produced for that operation. -/
theorem c8_non_json_body_fatal {σ : Type} (tc : Option σ → Bool → TypeConversion)
    (render : String → ServiceOperation σ → String) (cfg : LibraryConfig)
    (op : Operation σ) (path_name : String) (path : PathItem σ)
    (http_operation : String) (async_type : Bool) (rb : RequestBody σ)
    (hrb : op.requestBody = some rb)
    (hjson : dictGet rb.content "application/json" = none) :
    generate_params tc op = Except.error "Unknown media type schema type: <class \x27dict\x27>"
    ∧ generate_service_operation tc render cfg op path_name path http_operation async_type
        = Except.error "Unknown media type schema type: <class \x27dict\x27>" := by
  have hgp : generate_params tc op
      = Except.error "Unknown media type schema type: <class \x27dict\x27>" := by
    cases hp : op.parameters <;> simp [generate_params, hp, hrb, hjson]
  exact ⟨hgp, by simp [generate_service_operation, hgp]⟩

/-- C8 witness: the XML-only request body of `opBodyXml` is fatal. -/
theorem c8_non_json_body_fatal_witness :
    opBodyXml.requestBody = some rbXml
    ∧ dictGet rbXml.content "application/json" = none
    ∧ generate_params tcInt opBodyXml
        = Except.error "Unknown media type schema type: <class \x27dict\x27>"
    ∧ generate_service_operation tcInt renderNull cfgSyncOnly opBodyXml "/x" piPets "post" false
        = Except.error "Unknown media type schema type: <class \x27dict\x27>" :=
  ⟨rfl, rfl,
    (c8_non_json_body_fatal tcInt renderNull cfgSyncOnly opBodyXml "/x" piPets "post" false
      rbXml rfl rfl).1,
    (c8_non_json_body_fatal tcInt renderNull cfgSyncOnly opBodyXml "/x" piPets "post" false
      rbXml rfl rfl).2⟩

/-- C9: deriving an operation identifier requires a present `operationId`:
when it is absent, `generate_operation_id` fails (the Python attribute access
on `None` raises), and descriptor construction for that operation fails as
well rather than producing a descriptor. -/
theorem c9_missing_operation_id {σ : Type} (tc : Option σ → Bool → TypeConversion)
    (render : String → ServiceOperation σ → String) (cfg : LibraryConfig)
    (op : Operation σ) (http_operation path_name : String) (path : PathItem σ)
    (async_type : Bool)
    (h : op.operationId = none) :
    (∃ e, generate_operation_id op http_operation = Except.error e)
    ∧ (∃ e, generate_service_operation tc render cfg op path_name path http_operation async_type
        = Except.error e) := by
  have hid : generate_operation_id op http_operation
      = Except.error "AttributeError: NoneType object has no attribute replace" := by
    simp [generate_operation_id, h]
  refine ⟨⟨_, hid⟩, ?_⟩
  cases hp : generate_params tc op with
  | error e => exact ⟨e, by simp [generate_service_operation, hp]⟩
  | ok l =>
    exact ⟨"AttributeError: NoneType object has no attribute replace",
      by simp [generate_service_operation, hp, hid]⟩

/-- C9 witness: the identifier-less `opNoId` fails both derivations. -/
theorem c9_missing_operation_id_witness :
    opNoId.operationId = none
    ∧ (∃ e, generate_operation_id opNoId "get" = Except.error e)
    ∧ (∃ e, generate_service_operation tcInt renderNull cfgSyncOnly opNoId "/p" piPets "get" false
        = Except.error e) :=
  ⟨rfl,
    (c9_missing_operation_id tcInt renderNull cfgSyncOnly opNoId "get" "/p" piPets false rfl).1,
    (c9_missing_operation_id tcInt renderNull cfgSyncOnly opNoId "get" "/p" piPets false rfl).2⟩

/-- C1 fails on the code: with only synchronous generation enabled and one
distinct tag observed, `generate_services` still produces 2 services, not 1:
both service loops run over the tag set regardless of the configuration
flags. -/
theorem c1_counterexample :
    cfgSyncOnly.include_sync = true
    ∧ cfgSyncOnly.include_async = false
    ∧ Except.map (fun ops => (distinctTags (ops.map (fun so => so.tag))).length)
        (generate_service_ops tcInt renderNull pathsPets cfgSyncOnly) = Except.ok 1
    ∧ Except.map (fun svcs => svcs.length)
        (generate_services tcInt renderNull pathsPets cfgSyncOnly) = Except.ok 2
    ∧ Except.map (fun svcs => svcs.length)
        (generate_services tcInt renderNull pathsPets cfgSyncOnly) ≠ Except.ok 1 :=
  ⟨rfl, rfl, rfl, rfl, fun h => by injection h with h2; exact absurd h2 (by decide)⟩

/-- C1 as amended: whenever generation succeeds, `generate_services`
produces exactly 2 × |distinct tag values observed across the generated
descriptors| Service records, regardless of which of the sync/async variants
the configuration enables — with only one enabled, the services of the other
variant are still emitted (with empty member lists). -/
theorem c1_services_count {σ : Type} (tc : Option σ → Bool → TypeConversion)
    (render : String → ServiceOperation σ → String)
    (paths : List (String × PathItem σ)) (cfg : LibraryConfig)
    (ops : List (ServiceOperation σ)) (svcs : List (Service σ))
    (hops : generate_service_ops tc render paths cfg = Except.ok ops)
    (hsvc : generate_services tc render paths cfg = Except.ok svcs) :
    svcs.length = 2 * (distinctTags (ops.map (fun so => so.tag))).length := by
  have hval : generate_services tc render paths cfg =
      Except.ok ((distinctTags (ops.map (fun so => so.tag))).map (mkSyncService cfg ops)
        ++ (distinctTags (ops.map (fun so => so.tag))).map (mkAsyncService cfg ops)) := by
    simp [generate_services, hops]
  rw [hval] at hsvc
  injection hsvc with hsvc
  rw [← hsvc]
  simp [List.length_append, List.length_map]
  ring

/-- C1 witness for the amended count: the sync-only configuration over one
tagged operation yields one descriptor, one distinct tag, and two services. -/
theorem c1_services_count_witness :
    generate_service_ops tcInt renderNull pathsPets cfgSyncOnly = Except.ok [soPets]
    ∧ generate_services tcInt renderNull pathsPets cfgSyncOnly = Except.ok svcsPets
    ∧ svcsPets.length = 2 * (distinctTags ([soPets].map (fun so => so.tag))).length :=
  ⟨rfl, rfl,
    c1_services_count tcInt renderNull pathsPets cfgSyncOnly [soPets] svcsPets rfl rfl⟩

end SvcGen
